import Mathlib

/-!
Verification of the VeryGoodMail email-classification services.

Shallow embedding of the decision logic of the two Python services:

* `src/Email-System-Server/phobert-service/main.py` — the rule-based
  fallback classifier (`RuleBasedClassifier.classify`) and the FastAPI
  endpoints `classify_email` (single item) and `batch_classify`.
* `src/PhoBERT-Service/app/classifier.py` — the label-index maps
  `CATEGORIES` / `SENTIMENTS` and `PhoBERTClassifier.classify`.

Modelling conventions:

* Python strings are `List Char`; Python `str.lower()` is an ASCII
  character-wise lowering (the keyword lists are already lower case, so
  nothing in the claims depends on Unicode case folding).
* Python `str.strip()` removes leading and trailing whitespace; we use the
  ASCII whitespace characters (space, tab, newline, carriage return,
  vertical tab, form feed), which is what the claims exercise.
* Python floats are modelled as exact rationals `ℚ`; all confidence
  formulas involved use only small decimal constants.
* The opaque neural models are inputs of the embedding: a prediction is a
  pair `(classIndex, confidence)`, and a model path that can raise is an
  `Except String` valued function.  Errors raised by backends are caught by
  the endpoints exactly where the Python `try`/`except` blocks sit.
-/

/-- Character-wise lowering, the embedding of Python `str.lower()` for the
ASCII texts the claims exercise. -/
def lowerPy (l : List Char) : List Char := l.map Char.toLower

/-- Whitespace test used by `pyStrip` (the ASCII whitespace characters that
Python `str.strip()` removes). -/
def isPySpace (c : Char) : Bool :=
  c = ' ' || c = '\t' || c = '\n' || c = '\r' || c = Char.ofNat 11 || c = Char.ofNat 12

/-- Embedding of Python `str.strip()`: drop whitespace from both ends. -/
def pyStrip (l : List Char) : List Char :=
  ((l.dropWhile isPySpace).reverse.dropWhile isPySpace).reverse

/-- Embedding of the Python substring test `kw in text`: does `kw` occur as a
contiguous sublist of `text`?  (`[] in text` is true, as in Python.) -/
def containsSub (kw : List Char) : List Char → Bool
  | [] => kw.isEmpty
  | c :: rest => kw.isPrefixOf (c :: rest) || containsSub kw rest

/-- Number of (possibly overlapping) occurrences of `kw` as a contiguous
sublist of `text`.  This is NOT used by the code; it is the quantity the
spec text of claim C5 talks about ("total number of substring occurrences"). -/
def countOccur (kw : List Char) : List Char → Nat
  | [] => if kw.isEmpty then 1 else 0
  | c :: rest => (if kw.isPrefixOf (c :: rest) then 1 else 0) + countOccur kw rest

/-- Embedding of `sum(1 for kw in kws if kw in textLower)`: the number of
entries of `kws` (with multiplicity) occurring in `textLower`. -/
def keywordCount (kws : List (List Char)) (textLower : List Char) : Nat :=
  kws.countP (fun kw => containsSub kw textLower)

/-! ## Keyword data of `RuleBasedClassifier`
(`src/Email-System-Server/phobert-service/main.py`, lines 281-303). -/

def SPAM_KEYWORDS_vi : List (List Char) :=
  ["trúng thưởng", "giảm cân", "kiếm tiền", "miễn phí", "khuyến mãi đặc biệt",
   "click ngay", "nhấn vào đây", "ưu đãi sốc", "giới hạn", "chỉ hôm nay"].map String.toList

def SPAM_KEYWORDS_en : List (List Char) :=
  ["winner", "lottery", "free money", "click here", "limited time",
   "act now", "congratulations", "selected", "prize", "urgent"].map String.toList

def NEGATIVE_KEYWORDS_vi : List (List Char) :=
  ["thất vọng", "tệ", "kém", "tồi", "phàn nàn", "khiếu nại", "hủy", "từ chối"].map String.toList

def NEGATIVE_KEYWORDS_en : List (List Char) :=
  ["disappointed", "terrible", "worst", "complaint", "cancel", "refuse",
   "angry", "frustrated"].map String.toList

def POSITIVE_KEYWORDS_vi : List (List Char) :=
  ["cảm ơn", "tuyệt vời", "xuất sắc", "hài lòng", "tốt", "yêu thích"].map String.toList

def POSITIVE_KEYWORDS_en : List (List Char) :=
  ["thank", "excellent", "great", "wonderful", "appreciate", "love",
   "amazing"].map String.toList

def CATEGORY_important : List (List Char) :=
  ["urgent", "important", "action required", "khẩn cấp", "quan trọng",
   "cần xử lý"].map String.toList

def CATEGORY_social : List (List Char) :=
  ["friend", "follow", "like", "comment", "bạn bè", "theo dõi",
   "bình luận"].map String.toList

def CATEGORY_promotions : List (List Char) :=
  ["sale", "discount", "offer", "deal", "giảm giá", "khuyến mãi",
   "ưu đãi"].map String.toList

def CATEGORY_updates : List (List Char) :=
  ["shipped", "delivered", "update", "notification", "giao hàng",
   "cập nhật", "thông báo"].map String.toList

/-- `SPAM_KEYWORDS.get(language, [])`: the dict lookup with default `[]`. -/
def spamKeywordsGet (language : String) : List (List Char) :=
  if language = "vi" then SPAM_KEYWORDS_vi
  else if language = "en" then SPAM_KEYWORDS_en else []

/-- `NEGATIVE_KEYWORDS.get(language, [])`. -/
def negativeKeywordsGet (language : String) : List (List Char) :=
  if language = "vi" then NEGATIVE_KEYWORDS_vi
  else if language = "en" then NEGATIVE_KEYWORDS_en else []

/-- `POSITIVE_KEYWORDS.get(language, [])`. -/
def positiveKeywordsGet (language : String) : List (List Char) :=
  if language = "vi" then POSITIVE_KEYWORDS_vi
  else if language = "en" then POSITIVE_KEYWORDS_en else []

/-! ## Scores of `RuleBasedClassifier.classify` (main.py lines 305-341) -/

/-- `spam_score`: entries of `SPAM_KEYWORDS.get(language, []) + SPAM_KEYWORDS["en"]`
occurring in the lower-cased text (main.py lines 310-311). -/
def spamScoreOf (text : List Char) (language : String) : Nat :=
  keywordCount (spamKeywordsGet language ++ SPAM_KEYWORDS_en) (lowerPy text)

/-- `pos_score` (main.py lines 316-317). -/
def posScoreOf (text : List Char) (language : String) : Nat :=
  keywordCount (positiveKeywordsGet language ++ POSITIVE_KEYWORDS_en) (lowerPy text)

/-- `neg_score` (main.py lines 318-319). -/
def negScoreOf (text : List Char) (language : String) : Nat :=
  keywordCount (negativeKeywordsGet language ++ NEGATIVE_KEYWORDS_en) (lowerPy text)

/-- `category_scores[cat]` for one category pattern (main.py lines 332-334). -/
def catScoreOf (pattern : List (List Char)) (text : List Char) : Nat :=
  keywordCount pattern (lowerPy text)

/-- Python `max(iterable, key=...)` over a head and a tail: the FIRST element
attaining the maximal second component wins (a later element replaces the
current best only when strictly greater). -/
def pyMaxBy (p : String × Nat) (rest : List (String × Nat)) : String × Nat :=
  rest.foldl (fun acc q => if acc.2 < q.2 then q else acc) p

/-- `max(category_scores, key=category_scores.get)` paired with its score, over
the insertion order `["important", "social", "promotions", "updates"]` of
`CATEGORY_PATTERNS` (main.py lines 298-303 and 337). -/
def catWinner (text : List Char) : String × Nat :=
  pyMaxBy ("important", catScoreOf CATEGORY_important text)
    [("social", catScoreOf CATEGORY_social text),
     ("promotions", catScoreOf CATEGORY_promotions text),
     ("updates", catScoreOf CATEGORY_updates text)]

/-- `max(category_scores.values())` (main.py line 336). -/
def maxCatScore (text : List Char) : Nat :=
  max (max (catScoreOf CATEGORY_important text) (catScoreOf CATEGORY_social text))
    (max (catScoreOf CATEGORY_promotions text) (catScoreOf CATEGORY_updates text))

/-- The response record built by `RuleBasedClassifier.classify` and
`PhoBERTClassifier.classify_email` (shape of `ClassifyResponse`). -/
structure ClassifyResult where
  is_spam : Bool
  spam_confidence : ℚ
  category : String
  category_confidence : ℚ
  sentiment : String
  sentiment_confidence : ℚ
  processing_time_ms : ℚ
deriving DecidableEq, Repr

/-- Embedding of `RuleBasedClassifier.classify` (main.py lines 305-351).
Each field is the value the Python method stores for it; the score
variables are shared through the `...ScoreOf` definitions above. -/
def ruleClassify (text : List Char) (language : String) : ClassifyResult where
  is_spam := decide (2 ≤ spamScoreOf text language)
  spam_confidence :=
    if 2 ≤ spamScoreOf text language then
      min ((1 : ℚ)/2 + (spamScoreOf text language : ℚ) * (1/10)) (95/100)
    else
      max ((1 : ℚ)/2 - (spamScoreOf text language : ℚ) * (1/10)) (1/10)
  category :=
    if 0 < maxCatScore text then (catWinner text).1 else "primary"
  category_confidence :=
    if 0 < maxCatScore text then
      min ((1 : ℚ)/2 + ((catWinner text).2 : ℚ) * (15/100)) (85/100)
    else (6 : ℚ)/10
  sentiment :=
    if negScoreOf text language < posScoreOf text language then "positive"
    else if posScoreOf text language < negScoreOf text language then "negative"
    else "neutral"
  sentiment_confidence :=
    if negScoreOf text language < posScoreOf text language then
      min ((1 : ℚ)/2 + (posScoreOf text language : ℚ) * (1/10)) (9/10)
    else if posScoreOf text language < negScoreOf text language then
      min ((1 : ℚ)/2 + (negScoreOf text language : ℚ) * (1/10)) (9/10)
    else (6 : ℚ)/10
  processing_time_ms := 1

/-! ## Endpoints of `src/Email-System-Server/phobert-service/main.py` -/

/-- The concatenated-and-trimmed text `f"{subject} {body}".strip()`
(main.py lines 415 and 471). -/
def fullTextOf (subject body : List Char) : List Char :=
  pyStrip (subject ++ ' ' :: body)

/-- The errors the endpoints can surface.  `emptyInput` is the 400
"Email content cannot be empty", `batchTooLarge` the 400 "Maximum 100 emails
per batch", and `internal` the catch-all 500 wrapping a backend exception. -/
inductive SvcError where
  | emptyInput : SvcError
  | batchTooLarge : SvcError
  | internal : String → SvcError
deriving DecidableEq, Repr

/-- One item of a `ClassifyRequest` (subject, body, language). -/
structure ClassifyReq where
  subject : List Char
  body : List Char
  language : String

/-- Embedding of the `POST /classify` handler `classify_email`
(main.py lines 407-432).  `modelsLoaded` is the Python condition
`classifier and classifier.models_loaded`; `model` is the opaque
`classifier.classify_email` call, whose exceptions the handler converts to a
500 `internal` error. -/
def classifyEmail (modelsLoaded : Bool)
    (model : List Char → List Char → Except String ClassifyResult)
    (subject body : List Char) (language : String) : Except SvcError ClassifyResult :=
  if fullTextOf subject body = [] then
    Except.error SvcError.emptyInput
  else if modelsLoaded then
    match model subject body with
    | Except.ok r => Except.ok r
    | Except.error e => Except.error (SvcError.internal e)
  else
    Except.ok (ruleClassify (fullTextOf subject body) language)

/-- One element of the `results` list of `batch_classify`: either
`{"success": True, **result}` or `{"success": False, "error": msg}`. -/
structure BatchItem where
  success : Bool
  result : Option ClassifyResult
  error : Option String
deriving DecidableEq, Repr

/-- The body `{"results": results, "total": len(results)}` returned by
`batch_classify`. -/
structure BatchResponse where
  results : List BatchItem
  total : Nat
deriving DecidableEq, Repr

/-- Processing of one batch item (the loop body of `batch_classify`,
main.py lines 469-478): classify, catching any error of this one item. -/
def processItem (modelsLoaded : Bool)
    (model : List Char → List Char → Except String ClassifyResult)
    (e : ClassifyReq) : BatchItem :=
  if modelsLoaded then
    match model e.subject e.body with
    | Except.ok r => { success := true, result := some r, error := none }
    | Except.error msg => { success := false, result := none, error := some msg }
  else
    { success := true,
      result := some (ruleClassify (fullTextOf e.subject e.body) e.language),
      error := none }

/-- Embedding of the `POST /batch-classify` handler `batch_classify`
(main.py lines 462-480): reject batches of more than 100 items up front,
otherwise process every item independently, in order. -/
def batchClassify (modelsLoaded : Bool)
    (model : List Char → List Char → Except String ClassifyResult)
    (emails : List ClassifyReq) : Except SvcError BatchResponse :=
  if 100 < emails.length then
    Except.error SvcError.batchTooLarge
  else
    Except.ok
      { results := emails.map (processItem modelsLoaded model),
        total := (emails.map (processItem modelsLoaded model)).length }

/-! ## `src/PhoBERT-Service/app/classifier.py` -/

/-- `PhoBERTClassifier.CATEGORIES.get(i, "primary")` (classifier.py
lines 46-53): NOTE the map has SIX entries, index 5 being `"spam"`. -/
def categoriesGet (i : Nat) : String :=
  if i = 0 then "primary"
  else if i = 1 then "important"
  else if i = 2 then "social"
  else if i = 3 then "promotions"
  else if i = 4 then "updates"
  else if i = 5 then "spam"
  else "primary"

/-- `PhoBERTClassifier.SENTIMENTS.get(i, "neutral")` (classifier.py
lines 55-59). -/
def sentimentsGet (i : Nat) : String :=
  if i = 0 then "negative"
  else if i = 1 then "neutral"
  else if i = 2 then "positive"
  else "neutral"

/-- The result dict of `PhoBERTClassifier.classify` (classifier.py
lines 173-180). -/
structure PHResult where
  category : String
  is_spam : Bool
  spam_score : ℚ
  sentiment : String
  sentiment_score : ℚ
  confidence : ℚ
deriving DecidableEq, Repr

/-- Embedding of `PhoBERTClassifier.classify` (classifier.py lines 163-216).
The opaque neural models are inputs: `some (pc, conf)` means the axis model
is present and `_predict` returns predicted class `pc` with confidence
`conf`; `none` means that axis model is `None`, leaving the default field
values.  Overall confidence is the arithmetic mean of the confidences that
were actually computed. -/
def phClassify (isLoaded : Bool)
    (spamPred sentPred catPred : Option (Nat × ℚ)) : PHResult :=
  if isLoaded = false then
    { category := "primary", is_spam := false, spam_score := 0,
      sentiment := "neutral", sentiment_score := 0, confidence := 0 }
  else
    { category :=
        match catPred with
        | some (pc, _) => categoriesGet pc
        | none => "primary"
      is_spam :=
        match spamPred with
        | some (pc, _) => decide (pc = 1)
        | none => false
      spam_score :=
        match spamPred with
        | some (pc, conf) => if pc = 1 then conf else 1 - conf
        | none => 0
      sentiment :=
        match sentPred with
        | some (pc, _) => sentimentsGet pc
        | none => "neutral"
      sentiment_score :=
        match sentPred with
        | some (_, conf) => conf
        | none => 0
      confidence :=
        let confs : List ℚ :=
          (match spamPred with | some (_, c) => [c] | none => []) ++
          (match sentPred with | some (_, c) => [c] | none => []) ++
          (match catPred with | some (_, c) => [c] | none => [])
        if confs.length = 0 then 0 else confs.sum / (confs.length : ℚ) }

/-! ## Spec-side definition for claim C5 -/

/-- The spam-axis score as the words of claim C5 describe it: the total
number of substring occurrences in the lower-cased text of keywords drawn
from the UNION of the requested language's set and the English set (each
distinct keyword contributing once per occurrence in the text).  This is a
spec-side definition, for comparison with `spamScoreOf`, which is the
code's. -/
def spamScoreSpecOcc (text : List Char) (language : String) : Nat :=
  (((spamKeywordsGet language ++ SPAM_KEYWORDS_en).dedup).map
    (fun kw => countOccur kw (lowerPy text))).sum

/-! ## Helper lemmas -/

/-- Characterization of the four-way Python `max(..., key=...)`: the winner is
the first entry (in declaration order) whose score equals the maximum, and
the winning score is the maximum. -/
theorem pyMaxBy_four (a b c d : Nat) :
    pyMaxBy ("important", a) [("social", b), ("promotions", c), ("updates", d)] =
      (if a = max (max a b) (max c d) then ("important", max (max a b) (max c d))
       else if b = max (max a b) (max c d) then ("social", max (max a b) (max c d))
       else if c = max (max a b) (max c d) then ("promotions", max (max a b) (max c d))
       else ("updates", max (max a b) (max c d))) := by
  by_cases h1 : a < b
  · by_cases h2 : b < c
    · by_cases h3 : c < d
      · have hM : max (max a b) (max c d) = d := by
          simp only [Nat.max_def]; split_ifs <;> omega
        rw [hM]; simp only [pyMaxBy, List.foldl]; simp [h1, h2, h3]
        try (split_ifs <;> first | rfl | (exfalso; omega))
      · have hM : max (max a b) (max c d) = c := by
          simp only [Nat.max_def]; split_ifs <;> omega
        rw [hM]; simp only [pyMaxBy, List.foldl]; simp [h1, h2, h3]
        try (split_ifs <;> first | rfl | (exfalso; omega))
    · by_cases h3 : b < d
      · have hM : max (max a b) (max c d) = d := by
          simp only [Nat.max_def]; split_ifs <;> omega
        rw [hM]; simp only [pyMaxBy, List.foldl]; simp [h1, h2, h3]
        try (split_ifs <;> first | rfl | (exfalso; omega))
      · have hM : max (max a b) (max c d) = b := by
          simp only [Nat.max_def]; split_ifs <;> omega
        rw [hM]; simp only [pyMaxBy, List.foldl]; simp [h1, h2, h3]
        try (split_ifs <;> first | rfl | (exfalso; omega))
  · by_cases h2 : a < c
    · by_cases h3 : c < d
      · have hM : max (max a b) (max c d) = d := by
          simp only [Nat.max_def]; split_ifs <;> omega
        rw [hM]; simp only [pyMaxBy, List.foldl]; simp [h1, h2, h3]
        try (split_ifs <;> first | rfl | (exfalso; omega))
      · have hM : max (max a b) (max c d) = c := by
          simp only [Nat.max_def]; split_ifs <;> omega
        rw [hM]; simp only [pyMaxBy, List.foldl]; simp [h1, h2, h3]
        try (split_ifs <;> first | rfl | (exfalso; omega))
    · by_cases h3 : a < d
      · have hM : max (max a b) (max c d) = d := by
          simp only [Nat.max_def]; split_ifs <;> omega
        rw [hM]; simp only [pyMaxBy, List.foldl]; simp [h1, h2, h3]
        try (split_ifs <;> first | rfl | (exfalso; omega))
      · have hM : max (max a b) (max c d) = a := by
          simp only [Nat.max_def]; split_ifs <;> omega
        rw [hM]; simp only [pyMaxBy, List.foldl]; simp [h1, h2, h3]

/-- `catWinner` is the first category in declaration order attaining the
maximal score, paired with that score. -/
theorem catWinner_eq (text : List Char) :
    catWinner text =
      (if catScoreOf CATEGORY_important text = maxCatScore text then
         ("important", maxCatScore text)
       else if catScoreOf CATEGORY_social text = maxCatScore text then
         ("social", maxCatScore text)
       else if catScoreOf CATEGORY_promotions text = maxCatScore text then
         ("promotions", maxCatScore text)
       else ("updates", maxCatScore text)) := by
  unfold catWinner maxCatScore
  exact pyMaxBy_four _ _ _ _

/-- When every keyword score is zero, the rule-based classifier returns the
neutral defaults. -/
theorem ruleClassify_defaults (text : List Char) (lang : String)
    (hs : spamScoreOf text lang = 0) (hp : posScoreOf text lang = 0)
    (hn : negScoreOf text lang = 0) (hm : maxCatScore text = 0) :
    (ruleClassify text lang).is_spam = false ∧
    (ruleClassify text lang).category = "primary" ∧
    (ruleClassify text lang).sentiment = "neutral" := by
  refine ⟨?_, ?_, ?_⟩ <;> simp [ruleClassify, hs, hp, hn, hm]

/-- On the empty text every keyword score is zero, whatever the language. -/
theorem scores_nil (lang : String) :
    spamScoreOf [] lang = 0 ∧ posScoreOf [] lang = 0 ∧
    negScoreOf [] lang = 0 ∧ maxCatScore [] = 0 := by
  unfold spamScoreOf posScoreOf negScoreOf maxCatScore catScoreOf keywordCount
    spamKeywordsGet positiveKeywordsGet negativeKeywordsGet
  split_ifs <;> decide

/-! ## Claims -/

/-- C2: in the rule-based scorer, for every text and language, `is_spam`
holds exactly when the spam keyword score is at least 2, and the reported
spam confidence is `min(0.5 + 0.1*score, 0.95)` when spam and
`max(0.5 - 0.1*score, 0.1)` otherwise. -/
theorem rule_spam_threshold_confidence (text : List Char) (lang : String) :
    ((ruleClassify text lang).is_spam = true ↔ 2 ≤ spamScoreOf text lang) ∧
    (ruleClassify text lang).spam_confidence =
      (if 2 ≤ spamScoreOf text lang then
        min ((1 : ℚ)/2 + (spamScoreOf text lang : ℚ) * (1/10)) (95/100)
      else
        max ((1 : ℚ)/2 - (spamScoreOf text lang : ℚ) * (1/10)) (1/10)) := by
  exact ⟨by simp [ruleClassify], rfl⟩

/-- C3: in the rule-based scorer the returned category is the first category
in declaration order `["important", "social", "promotions", "updates"]`
whose keyword count attains the maximum, with confidence
`min(0.5 + 0.15*count, 0.85)`, when some pattern matched; otherwise it is
`"primary"` with confidence 0.6. -/
theorem rule_category_tiebreak (text : List Char) (lang : String) :
    (0 < maxCatScore text →
      (ruleClassify text lang).category =
        (if catScoreOf CATEGORY_important text = maxCatScore text then "important"
         else if catScoreOf CATEGORY_social text = maxCatScore text then "social"
         else if catScoreOf CATEGORY_promotions text = maxCatScore text then "promotions"
         else "updates") ∧
      (ruleClassify text lang).category_confidence =
        min ((1 : ℚ)/2 + (maxCatScore text : ℚ) * (15/100)) (85/100)) ∧
    (maxCatScore text = 0 →
      (ruleClassify text lang).category = "primary" ∧
      (ruleClassify text lang).category_confidence = (6 : ℚ)/10) := by
  constructor
  · intro h
    constructor
    · simp only [ruleClassify, if_pos h]
      rw [catWinner_eq]
      split_ifs <;> rfl
    · simp only [ruleClassify, if_pos h]
      rw [catWinner_eq]
      split_ifs <;> rfl
  · intro h
    constructor <;> simp [ruleClassify, h]

/-- C3 witness: on a tie (one "important" keyword and one "social" keyword)
the first category in declaration order wins. -/
theorem rule_category_tiebreak_witness :
    (ruleClassify (String.toList "urgent friend") "vi").category = "important" := by
  have h := ((rule_category_tiebreak (String.toList "urgent friend") "vi").1 (by decide)).1
  rw [h]
  decide

/-- C4: in the rule-based scorer, a strictly larger positive count gives
sentiment `"positive"` with confidence `min(0.5 + 0.1*pos, 0.9)`, a strictly
larger negative count gives `"negative"` with `min(0.5 + 0.1*neg, 0.9)`, and
equal counts give `"neutral"` with fixed confidence 0.6. -/
theorem rule_sentiment_tiebreak (text : List Char) (lang : String) :
    (negScoreOf text lang < posScoreOf text lang →
      (ruleClassify text lang).sentiment = "positive" ∧
      (ruleClassify text lang).sentiment_confidence =
        min ((1 : ℚ)/2 + (posScoreOf text lang : ℚ) * (1/10)) (9/10)) ∧
    (posScoreOf text lang < negScoreOf text lang →
      (ruleClassify text lang).sentiment = "negative" ∧
      (ruleClassify text lang).sentiment_confidence =
        min ((1 : ℚ)/2 + (negScoreOf text lang : ℚ) * (1/10)) (9/10)) ∧
    (posScoreOf text lang = negScoreOf text lang →
      (ruleClassify text lang).sentiment = "neutral" ∧
      (ruleClassify text lang).sentiment_confidence = (6 : ℚ)/10) := by
  refine ⟨fun h => ?_, fun h => ?_, fun h => ?_⟩
  · constructor <;> simp [ruleClassify, h]
  · have h2 : ¬ negScoreOf text lang < posScoreOf text lang := by omega
    constructor <;> simp [ruleClassify, h, h2]
  · have h2 : ¬ negScoreOf text lang < posScoreOf text lang := by omega
    have h3 : ¬ posScoreOf text lang < negScoreOf text lang := by omega
    constructor <;> simp [ruleClassify, h2, h3]

/-- C4 witness: one positive keyword and no negative keyword yields
sentiment `"positive"`. -/
theorem rule_sentiment_tiebreak_witness :
    (ruleClassify (String.toList "thank you") "vi").sentiment = "positive" :=
  ((rule_sentiment_tiebreak (String.toList "thank you") "vi").1 (by decide)).1

/-- C5 counterexample: the claim says a keyword occurring k times contributes
k to the score (total substring occurrences over the union of the sets); on
the text "winner winner" the spec-side occurrence count over the union is 2,
but the code's score is 1 — each list entry contributes at most once,
however often the keyword occurs. -/
theorem rule_keyword_score_not_occurrences :
    spamScoreSpecOcc (String.toList "winner winner") "vi" = 2 ∧
    spamScoreOf (String.toList "winner winner") "vi" = 1 := by
  exact ⟨by decide, by decide⟩

/-- C5 amended: each axis score is the number of entries, counted with
multiplicity, of the concatenation of the requested language's keyword list
(empty for unknown codes) and the English list that occur at least once as
substrings of the lower-cased text; the category patterns are fixed single
lists.  Because the lists are concatenated rather than unioned, for language
"en" every matched English spam keyword contributes 2. -/
theorem rule_keyword_score_membership (text : List Char) (lang : String) :
    spamScoreOf text lang =
      ((spamKeywordsGet lang ++ SPAM_KEYWORDS_en).filter
        (fun kw => containsSub kw (lowerPy text))).length ∧
    posScoreOf text lang =
      ((positiveKeywordsGet lang ++ POSITIVE_KEYWORDS_en).filter
        (fun kw => containsSub kw (lowerPy text))).length ∧
    negScoreOf text lang =
      ((negativeKeywordsGet lang ++ NEGATIVE_KEYWORDS_en).filter
        (fun kw => containsSub kw (lowerPy text))).length ∧
    catScoreOf CATEGORY_important text =
      (CATEGORY_important.filter (fun kw => containsSub kw (lowerPy text))).length ∧
    catScoreOf CATEGORY_social text =
      (CATEGORY_social.filter (fun kw => containsSub kw (lowerPy text))).length ∧
    catScoreOf CATEGORY_promotions text =
      (CATEGORY_promotions.filter (fun kw => containsSub kw (lowerPy text))).length ∧
    catScoreOf CATEGORY_updates text =
      (CATEGORY_updates.filter (fun kw => containsSub kw (lowerPy text))).length ∧
    spamScoreOf text "en" =
      2 * (SPAM_KEYWORDS_en.filter (fun kw => containsSub kw (lowerPy text))).length := by
  refine ⟨List.countP_eq_length_filter _ _, List.countP_eq_length_filter _ _,
    List.countP_eq_length_filter _ _, List.countP_eq_length_filter _ _,
    List.countP_eq_length_filter _ _, List.countP_eq_length_filter _ _,
    List.countP_eq_length_filter _ _, ?_⟩
  have hen : spamKeywordsGet "en" = SPAM_KEYWORDS_en := by
    unfold spamKeywordsGet
    rw [if_neg (by decide), if_pos rfl]
  unfold spamScoreOf keywordCount
  rw [hen, List.countP_append, List.countP_eq_length_filter]
  omega

/-- C1 counterexample: in `PhoBERT-Service/app/classifier.py` the
`CATEGORIES` map has a sixth entry `5: "spam"`, so when the category model
predicts class index 5 the returned category is the string "spam" — not one
of the five category labels the claim allows. -/
theorem phobert_category_can_be_spam :
    (phClassify true none none (some (5, 1))).category = "spam" ∧
    "spam" ∉ (["important", "social", "promotions", "updates", "primary"] : List String) := by
  exact ⟨by decide, by decide⟩

/-- `categoriesGet` always lands in the six-label list. -/
theorem categoriesGet_mem (i : Nat) :
    categoriesGet i ∈
      (["primary", "important", "social", "promotions", "updates", "spam"] : List String) := by
  unfold categoriesGet
  split_ifs <;> simp

/-- `sentimentsGet` always lands in the three-label list. -/
theorem sentimentsGet_mem (i : Nat) :
    sentimentsGet i ∈ (["negative", "neutral", "positive"] : List String) := by
  unfold sentimentsGet
  split_ifs <;> simp

/-- C1 amended: for every model prediction, the classification result's
category is one of the SIX labels [primary, important, social, promotions,
updates, spam] — the string "spam" IS a possible category value, produced
when the category model predicts class index 5 — and the sentiment is always
one of the three labels [negative, neutral, positive]. -/
theorem phobert_label_ranges (isLoaded : Bool)
    (spamPred sentPred catPred : Option (Nat × ℚ)) :
    (phClassify isLoaded spamPred sentPred catPred).category ∈
      (["primary", "important", "social", "promotions", "updates", "spam"] : List String) ∧
    (phClassify isLoaded spamPred sentPred catPred).sentiment ∈
      (["negative", "neutral", "positive"] : List String) := by
  by_cases h : isLoaded = false
  · simp [phClassify, h]
  · rcases catPred with _ | ⟨pc, cc⟩ <;> rcases sentPred with _ | ⟨ps, cs⟩
    · simp [phClassify, h]
    · simp [phClassify, h]
      simpa using sentimentsGet_mem ps
    · simp [phClassify, h]
      simpa using categoriesGet_mem pc
    · simp [phClassify, h]
      exact ⟨by simpa using categoriesGet_mem pc, by simpa using sentimentsGet_mem ps⟩

/-- C6: the single-item classify endpoint fails with the empty-input error
exactly when the trimmed concatenation of subject and body is empty, and in
that case the outcome does not depend on the backend at all (the rejection
happens before any classification work); when the trimmed concatenation is
non-empty the empty-input error is never returned. -/
theorem classify_empty_input (modelsLoaded : Bool)
    (model : List Char → List Char → Except String ClassifyResult)
    (subject body : List Char) (lang : String) :
    (classifyEmail modelsLoaded model subject body lang =
        Except.error SvcError.emptyInput ↔ fullTextOf subject body = []) ∧
    (fullTextOf subject body = [] →
      ∀ (ml₂ : Bool) (model₂ : List Char → List Char → Except String ClassifyResult),
        classifyEmail modelsLoaded model subject body lang =
          classifyEmail ml₂ model₂ subject body lang) := by
  constructor
  · by_cases h : fullTextOf subject body = []
    · simp [classifyEmail, h]
    · simp only [classifyEmail, if_neg h]
      by_cases hm : modelsLoaded
      · simp only [hm, if_true]
        cases model subject body <;> simp [h]
      · simp [hm, h]
  · intro h ml₂ model₂
    simp [classifyEmail, h]

/-- C6 witness: empty subject and body are rejected with the empty-input
error on the rule-based path. -/
theorem classify_empty_input_witness :
    classifyEmail false (fun _ _ => Except.error "boom") [] [] "vi" =
      Except.error SvcError.emptyInput :=
  (classify_empty_input false (fun _ _ => Except.error "boom") [] [] "vi").1.mpr
    (by decide)

/-- C7: the batch endpoint fails with the batch-too-large error exactly when
the batch has more than 100 items, and in that case the outcome does not
depend on the backend (no item is processed); batches of at most 100 items
never get that error. -/
theorem batch_size_cap (modelsLoaded : Bool)
    (model : List Char → List Char → Except String ClassifyResult)
    (emails : List ClassifyReq) :
    (batchClassify modelsLoaded model emails =
        Except.error SvcError.batchTooLarge ↔ 100 < emails.length) ∧
    (100 < emails.length →
      ∀ (ml₂ : Bool) (model₂ : List Char → List Char → Except String ClassifyResult),
        batchClassify modelsLoaded model emails = batchClassify ml₂ model₂ emails) := by
  constructor
  · by_cases h : 100 < emails.length <;> simp [batchClassify, h]
  · intro h ml₂ model₂
    simp [batchClassify, h]

/-- C7 witness: a batch of 101 items fails with the batch-too-large error. -/
theorem batch_size_cap_witness :
    batchClassify false (fun _ _ => Except.error "boom")
        (List.replicate 101 ⟨[], [], "vi"⟩) =
      Except.error SvcError.batchTooLarge :=
  (batch_size_cap false (fun _ _ => Except.error "boom")
      (List.replicate 101 ⟨[], [], "vi"⟩)).1.mpr (by simp)

/-- C8: a batch of at most 100 items returns exactly one item per input, in
input order, each computed from that input alone (so one item's failure
cannot affect another); an item whose backend call raises is recorded as a
failure carrying the message, an item that succeeds carries its result, and
`total` is the number of inputs, failed ones included. -/
theorem batch_isolation (modelsLoaded : Bool)
    (model : List Char → List Char → Except String ClassifyResult)
    (emails : List ClassifyReq) (h : emails.length ≤ 100) :
    batchClassify modelsLoaded model emails =
      Except.ok { results := emails.map (processItem modelsLoaded model),
                  total := emails.length } ∧
    (∀ (e : ClassifyReq) (r : ClassifyResult), modelsLoaded = true →
      model e.subject e.body = Except.ok r →
      processItem modelsLoaded model e =
        { success := true, result := some r, error := none }) ∧
    (∀ (e : ClassifyReq) (msg : String), modelsLoaded = true →
      model e.subject e.body = Except.error msg →
      processItem modelsLoaded model e =
        { success := false, result := none, error := some msg }) ∧
    (modelsLoaded = false → ∀ e : ClassifyReq,
      processItem modelsLoaded model e =
        { success := true,
          result := some (ruleClassify (fullTextOf e.subject e.body) e.language),
          error := none }) := by
  refine ⟨?_, ?_, ?_, ?_⟩
  · simp [batchClassify, Nat.not_lt.mpr h]
  · intro e r hm hok
    simp [processItem, hm, hok]
  · intro e msg hm herr
    simp [processItem, hm, herr]
  · intro hm e
    simp [processItem, hm]

/-- C8 witness: a two-item batch whose backend raises on the second item
returns two items in order, the first a success and the second a recorded
failure, with total 2. -/
theorem batch_isolation_witness :
    batchClassify true
        (fun s _ => if s = String.toList "boom" then Except.error "kaput"
          else Except.ok (ruleClassify (String.toList "ok") "vi"))
        [⟨String.toList "hi", [], "vi"⟩, ⟨String.toList "boom", [], "vi"⟩] =
      Except.ok
        { results := [⟨true, some (ruleClassify (String.toList "ok") "vi"), none⟩,
                      ⟨false, none, some "kaput"⟩],
          total := 2 } := by
  have h := (batch_isolation true
      (fun s _ => if s = String.toList "boom" then Except.error "kaput"
        else Except.ok (ruleClassify (String.toList "ok") "vi"))
      [⟨String.toList "hi", [], "vi"⟩, ⟨String.toList "boom", [], "vi"⟩]
      (by decide)).1
  rw [h]
  rfl

/-- C9: the rule-based scorer is a total function, and on any text in which
no keyword of any axis occurs (for the requested language), it returns
exactly is_spam = false, category = "primary", sentiment = "neutral". -/
theorem rule_zero_match_defaults (text : List Char) (lang : String)
    (hsp : ∀ kw ∈ spamKeywordsGet lang ++ SPAM_KEYWORDS_en,
      containsSub kw (lowerPy text) = false)
    (hpo : ∀ kw ∈ positiveKeywordsGet lang ++ POSITIVE_KEYWORDS_en,
      containsSub kw (lowerPy text) = false)
    (hne : ∀ kw ∈ negativeKeywordsGet lang ++ NEGATIVE_KEYWORDS_en,
      containsSub kw (lowerPy text) = false)
    (hc1 : ∀ kw ∈ CATEGORY_important, containsSub kw (lowerPy text) = false)
    (hc2 : ∀ kw ∈ CATEGORY_social, containsSub kw (lowerPy text) = false)
    (hc3 : ∀ kw ∈ CATEGORY_promotions, containsSub kw (lowerPy text) = false)
    (hc4 : ∀ kw ∈ CATEGORY_updates, containsSub kw (lowerPy text) = false) :
    (ruleClassify text lang).is_spam = false ∧
    (ruleClassify text lang).category = "primary" ∧
    (ruleClassify text lang).sentiment = "neutral" := by
  have hs : spamScoreOf text lang = 0 := by
    unfold spamScoreOf keywordCount
    rw [List.countP_eq_zero]
    intro kw hkw
    simp [hsp kw hkw]
  have hp : posScoreOf text lang = 0 := by
    unfold posScoreOf keywordCount
    rw [List.countP_eq_zero]
    intro kw hkw
    simp [hpo kw hkw]
  have hn : negScoreOf text lang = 0 := by
    unfold negScoreOf keywordCount
    rw [List.countP_eq_zero]
    intro kw hkw
    simp [hne kw hkw]
  have hcs : ∀ (pat : List (List Char)),
      (∀ kw ∈ pat, containsSub kw (lowerPy text) = false) →
      catScoreOf pat text = 0 := by
    intro pat hpat
    unfold catScoreOf keywordCount
    rw [List.countP_eq_zero]
    intro kw hkw
    simp [hpat kw hkw]
  have hm : maxCatScore text = 0 := by
    unfold maxCatScore
    rw [hcs CATEGORY_important hc1, hcs CATEGORY_social hc2,
      hcs CATEGORY_promotions hc3, hcs CATEGORY_updates hc4]
    simp
  exact ruleClassify_defaults text lang hs hp hn hm

/-- C9 witness: the empty string matches no keyword, and gets the neutral
defaults. -/
theorem rule_zero_match_defaults_witness :
    (ruleClassify [] "vi").is_spam = false ∧
    (ruleClassify [] "vi").category = "primary" ∧
    (ruleClassify [] "vi").sentiment = "neutral" :=
  rule_zero_match_defaults [] "vi" (by decide) (by decide) (by decide)
    (by decide) (by decide) (by decide) (by decide)

/-- C10: in batch mode an item whose trimmed subject-plus-body text is empty
is NOT rejected: with models not loaded it is classified by the rule-based
scorer on the empty string and returned as a success carrying the
neutral-default labels — whereas the single-item endpoint rejects the same
input with the empty-input error before doing any work. -/
theorem batch_empty_item_accepted (subject body : List Char) (lang : String)
    (model : List Char → List Char → Except String ClassifyResult)
    (h : fullTextOf subject body = []) :
    processItem false model ⟨subject, body, lang⟩ =
      { success := true, result := some (ruleClassify [] lang), error := none } ∧
    (ruleClassify [] lang).is_spam = false ∧
    (ruleClassify [] lang).category = "primary" ∧
    (ruleClassify [] lang).sentiment = "neutral" ∧
    classifyEmail false model subject body lang =
      Except.error SvcError.emptyInput := by
  obtain ⟨hs, hp, hn, hm⟩ := scores_nil lang
  obtain ⟨d1, d2, d3⟩ := ruleClassify_defaults [] lang hs hp hn hm
  refine ⟨?_, d1, d2, d3, ?_⟩
  · simp [processItem, h]
  · simp [classifyEmail, h]

/-- C10 witness: the empty request in a batch, with an unknown language code,
is a success with the neutral defaults, while the single-item endpoint
rejects it. -/
theorem batch_empty_item_accepted_witness :
    processItem false (fun _ _ => Except.error "boom") ⟨[], [], "fr"⟩ =
      { success := true, result := some (ruleClassify [] "fr"), error := none } ∧
    classifyEmail false (fun _ _ => Except.error "boom") [] [] "fr" =
      Except.error SvcError.emptyInput :=
  ⟨(batch_empty_item_accepted [] [] "fr" (fun _ _ => Except.error "boom")
      (by decide)).1,
   (batch_empty_item_accepted [] [] "fr" (fun _ _ => Except.error "boom")
      (by decide)).2.2.2.2⟩
